import Mathlib

/-!
Shallow embedding of the styling configuration model of the `inquire`
repository (files `src/ui/color.rs` and `src/ui/render_config.rs`),
together with theorems settling the specification claims about it.

Rust `u8` fields are embedded as `Fin 256`; Rust structs and enums become
Lean structures and inductives with the corresponding fields and variants.
Builder methods that consume `self` and return an updated value become
pure functions returning an updated record.
-/

namespace Inquire

/-- Embedding of Rust `u8`: the integers 0–255. -/
abbrev U8 := Fin 256

/-- The `Color` enum of `src/ui/color.rs`: sixteen named colors, an
`Rgb { r, g, b }` variant with three `u8` channels, and an `AnsiValue(u8)`
variant. -/
inductive Color where
  | black
  | darkGrey
  | red
  | darkRed
  | green
  | darkGreen
  | yellow
  | darkYellow
  | blue
  | darkBlue
  | magenta
  | darkMagenta
  | cyan
  | darkCyan
  | white
  | grey
  | rgb (r g b : U8)
  | ansiValue (n : U8)
deriving DecidableEq

/-- The color enumeration of the external terminal-control library
(`crossterm::style::Color`), the target type of the one-way conversion in
`src/ui/color.rs`.  It mirrors every variant the conversion's `match`
produces, plus crossterm's `Reset` variant, which the conversion never
produces. -/
inductive CrosstermColor where
  | reset
  | black
  | darkGrey
  | red
  | darkRed
  | green
  | darkGreen
  | yellow
  | darkYellow
  | blue
  | darkBlue
  | magenta
  | darkMagenta
  | cyan
  | darkCyan
  | white
  | grey
  | rgb (r g b : U8)
  | ansiValue (n : U8)
deriving DecidableEq

/-- The conversion `impl From<Color> for crossterm::style::Color` of
`src/ui/color.rs`, arm for arm. -/
def Color.toCrossterm : Color → CrosstermColor
  | .black => .black
  | .darkGrey => .darkGrey
  | .red => .red
  | .darkRed => .darkRed
  | .green => .green
  | .darkGreen => .darkGreen
  | .yellow => .yellow
  | .darkYellow => .darkYellow
  | .blue => .blue
  | .darkBlue => .darkBlue
  | .magenta => .magenta
  | .darkMagenta => .darkMagenta
  | .cyan => .cyan
  | .darkCyan => .darkCyan
  | .white => .white
  | .grey => .grey
  | .rgb r g b => .rgb r g b
  | .ansiValue n => .ansiValue n

/-- `true` exactly on the named (unit) variants of `Color`, i.e. everything
except `Rgb` and `AnsiValue`. -/
def Color.isNamed : Color → Bool
  | .rgb _ _ _ => false
  | .ansiValue _ => false
  | _ => true

/-- The list of all named (unit) variants of `Color`, in declaration order. -/
def Color.namedColors : List Color :=
  [.black, .darkGrey, .red, .darkRed, .green, .darkGreen, .yellow,
   .darkYellow, .blue, .darkBlue, .magenta, .darkMagenta, .cyan, .darkCyan,
   .white, .grey]

/-- Partial inverse of `Color.toCrossterm`, used to establish injectivity of
the conversion.  `CrosstermColor.reset` is the only value outside its
image. -/
def crosstermToColor : CrosstermColor → Option Color
  | .reset => none
  | .black => some .black
  | .darkGrey => some .darkGrey
  | .red => some .red
  | .darkRed => some .darkRed
  | .green => some .green
  | .darkGreen => some .darkGreen
  | .yellow => some .yellow
  | .darkYellow => some .darkYellow
  | .blue => some .blue
  | .darkBlue => some .darkBlue
  | .magenta => some .magenta
  | .darkMagenta => some .darkMagenta
  | .cyan => some .cyan
  | .darkCyan => some .darkCyan
  | .white => some .white
  | .grey => some .grey
  | .rgb r g b => some (.rgb r g b)
  | .ansiValue n => some (.ansiValue n)

/-- Modelled from the spec: the text-attribute component of a `StyleSheet`
(the `Attributes` type of `src/ui/style.rs`, which is not among the shown
source files).  Per the spec it is "a set-like collection of independent
binary attributes (e.g., bold, italic, underline)", so it is embedded as
one Boolean flag per attribute. -/
structure Attributes where
  bold : Bool
  italic : Bool
  underline : Bool
deriving DecidableEq

/-- The empty attribute set: no attribute applied. -/
def Attributes.empty : Attributes :=
  { bold := false, italic := false, underline := false }

/-- One independent binary text attribute. -/
inductive Attribute where
  | bold
  | italic
  | underline
deriving DecidableEq

/-- Adding one attribute to an attribute set. -/
def Attributes.insert (s : Attributes) : Attribute → Attributes
  | .bold => { s with bold := true }
  | .italic => { s with italic := true }
  | .underline => { s with underline := true }

/-- Modelled from the spec: `StyleSheet` of `src/ui/style.rs` (not among the
shown source files) — "`{ foreground: Option<Color>, background:
Option<Color>, attributes: Set<TextAttribute> }`.  `None` means inherit
terminal default". -/
structure StyleSheet where
  fg : Option Color
  bg : Option Color
  att : Attributes
deriving DecidableEq

/-- Modelled from the spec: `StyleSheet::empty()` — the identity
`StyleSheet`, all fields unset. -/
def StyleSheet.empty : StyleSheet :=
  { fg := none, bg := none, att := Attributes.empty }

/-- Modelled from the spec: `StyleSheet::with_fg(color)` consumes the value
and returns it with exactly the foreground overwritten. -/
def StyleSheet.withFg (s : StyleSheet) (c : Color) : StyleSheet :=
  { s with fg := some c }

/-- Modelled from the spec: `StyleSheet::with_bg(color)` consumes the value
and returns it with exactly the background overwritten. -/
def StyleSheet.withBg (s : StyleSheet) (c : Color) : StyleSheet :=
  { s with bg := some c }

/-- Modelled from the spec: `StyleSheet::with_attribute(attr)` consumes the
value and returns it with the attribute set augmented by `a`. -/
def StyleSheet.withAttribute (s : StyleSheet) (a : Attribute) : StyleSheet :=
  { s with att := s.att.insert a }

/-- Modelled from the spec: `Styled<T>` of `src/ui/style.rs` (not among the
shown source files) — "`{ content: T, style: StyleSheet }`", a fixed label
paired with its own style. -/
structure Styled (α : Type) where
  content : α
  style : StyleSheet
deriving DecidableEq

/-- Modelled from the spec: `Styled::new(content)` — a value with no
foreground or background set (unstyled label). -/
def Styled.new {α : Type} (x : α) : Styled α :=
  { content := x, style := StyleSheet.empty }

/-- Modelled from the spec: `Styled::with_fg`, analogous to
`StyleSheet::with_fg`. -/
def Styled.withFg {α : Type} (s : Styled α) (c : Color) : Styled α :=
  { s with style := s.style.withFg c }

/-- Modelled from the spec: `Styled::with_bg`, analogous to
`StyleSheet::with_bg`. -/
def Styled.withBg {α : Type} (s : Styled α) (c : Color) : Styled α :=
  { s with style := s.style.withBg c }

/-- The `InputRenderConfig` struct of `src/ui/render_config.rs`: a text
style sheet and a cursor style sheet. -/
structure InputRenderConfig where
  text : StyleSheet
  cursor : StyleSheet
deriving DecidableEq

/-- `InputRenderConfig::empty()`: no colors or attributes applied. -/
def InputRenderConfig.empty : InputRenderConfig :=
  { text := StyleSheet.empty, cursor := StyleSheet.empty }

/-- `InputRenderConfig::with_text`: sets the text style sheet. -/
def InputRenderConfig.withText (c : InputRenderConfig) (v : StyleSheet) :
    InputRenderConfig :=
  { c with text := v }

/-- `InputRenderConfig::with_cursor`: sets the cursor style sheet. -/
def InputRenderConfig.withCursor (c : InputRenderConfig) (v : StyleSheet) :
    InputRenderConfig :=
  { c with cursor := v }

/-- `impl Default for InputRenderConfig`: unstyled text, cursor with grey
background and black foreground. -/
def InputRenderConfig.default : InputRenderConfig :=
  { text := StyleSheet.empty,
    cursor := (StyleSheet.empty.withBg Color.grey).withFg Color.black }

/-- The `ErrorMessageRenderConfig` struct of `src/ui/render_config.rs`.
The field `pfx` embeds the Rust field `prefix` (renamed because of a Lean
keyword clash). -/
structure ErrorMessageRenderConfig where
  pfx : Styled String
  separator : StyleSheet
  message : StyleSheet
deriving DecidableEq

/-- `ErrorMessageRenderConfig::empty()`: unstyled `"#"` label, no colors or
attributes applied. -/
def ErrorMessageRenderConfig.empty : ErrorMessageRenderConfig :=
  { pfx := Styled.new "#",
    separator := StyleSheet.empty,
    message := StyleSheet.empty }

/-- `ErrorMessageRenderConfig::with_prefix`: sets the prefix label. -/
def ErrorMessageRenderConfig.withPfx (c : ErrorMessageRenderConfig)
    (v : Styled String) : ErrorMessageRenderConfig :=
  { c with pfx := v }

/-- `ErrorMessageRenderConfig::with_separator`: sets the separator style
sheet. -/
def ErrorMessageRenderConfig.withSeparator (c : ErrorMessageRenderConfig)
    (v : StyleSheet) : ErrorMessageRenderConfig :=
  { c with separator := v }

/-- `ErrorMessageRenderConfig::with_message`: sets the message style
sheet. -/
def ErrorMessageRenderConfig.withMessage (c : ErrorMessageRenderConfig)
    (v : StyleSheet) : ErrorMessageRenderConfig :=
  { c with message := v }

/-- `impl Default for ErrorMessageRenderConfig`: `"#"` label styled red,
unstyled separator, message styled red. -/
def ErrorMessageRenderConfig.default : ErrorMessageRenderConfig :=
  { pfx := (Styled.new "#").withFg Color.red,
    separator := StyleSheet.empty,
    message := StyleSheet.empty.withFg Color.red }

/-- The `RenderConfig` struct of `src/ui/render_config.rs`, the root
aggregate of the theming model.  The field `promptPrefix` embeds the Rust
field `prompt_prefix`; the other fields keep their source names in
camel case. -/
structure RenderConfig where
  promptPrefix : Styled String
  prompt : StyleSheet
  defaultValue : StyleSheet
  textInput : InputRenderConfig
  answer : StyleSheet
  errorMessage : ErrorMessageRenderConfig
deriving DecidableEq

/-- `RenderConfig::empty()`: no colors or attributes applied anywhere;
the prompt prefix is the unstyled label `"?"`. -/
def RenderConfig.empty : RenderConfig :=
  { promptPrefix := Styled.new "?",
    prompt := StyleSheet.empty,
    defaultValue := StyleSheet.empty,
    textInput := InputRenderConfig.empty,
    answer := StyleSheet.empty,
    errorMessage := ErrorMessageRenderConfig.empty }

/-- `impl Default for RenderConfig`: the curated theme — `"?"` label styled
green, cyan answer, default input and error sub-configurations, everything
else unstyled. -/
def RenderConfig.default : RenderConfig :=
  { promptPrefix := (Styled.new "?").withFg Color.green,
    prompt := StyleSheet.empty,
    defaultValue := StyleSheet.empty,
    textInput := InputRenderConfig.default,
    answer := StyleSheet.empty.withFg Color.cyan,
    errorMessage := ErrorMessageRenderConfig.default }

/-- `RenderConfig::with_prompt_prefix`: sets the prompt prefix. -/
def RenderConfig.withPromptPrefix (c : RenderConfig) (v : Styled String) :
    RenderConfig :=
  { c with promptPrefix := v }

/-- `RenderConfig::with_text_input`: sets the text-input configuration. -/
def RenderConfig.withTextInput (c : RenderConfig) (v : InputRenderConfig) :
    RenderConfig :=
  { c with textInput := v }

/-- `RenderConfig::with_default_value`: sets the default-value style
sheet. -/
def RenderConfig.withDefaultValue (c : RenderConfig) (v : StyleSheet) :
    RenderConfig :=
  { c with defaultValue := v }

/-- `RenderConfig::with_answer`: sets the answer style sheet. -/
def RenderConfig.withAnswer (c : RenderConfig) (v : StyleSheet) :
    RenderConfig :=
  { c with answer := v }

/-- `RenderConfig::with_error_message`: sets the error-message
configuration. -/
def RenderConfig.withErrorMessage (c : RenderConfig)
    (v : ErrorMessageRenderConfig) : RenderConfig :=
  { c with errorMessage := v }

/-- Helper: `crosstermToColor` is a left inverse of `Color.toCrossterm`. -/
theorem crossterm_left_inverse (c : Color) :
    crosstermToColor c.toCrossterm = some c := by
  cases c <;> rfl

/-- Claim C1: the conversion from `Color` into the external (crossterm)
color representation is total (it is a total function by construction) and
structure-preserving: `Rgb { r, g, b }` maps to the external `Rgb` value
with the identical `r`, `g`, `b` channels; `AnsiValue(n)` maps to the
external `AnsiValue` with the identical `n`; and each named color variant
maps to the like-named external variant. -/
theorem C1_color_conversion_structure_preserving :
    (∀ r g b : U8,
      Color.toCrossterm (Color.rgb r g b) = CrosstermColor.rgb r g b) ∧
    (∀ n : U8,
      Color.toCrossterm (Color.ansiValue n) = CrosstermColor.ansiValue n) ∧
    Color.toCrossterm Color.black = CrosstermColor.black ∧
    Color.toCrossterm Color.darkGrey = CrosstermColor.darkGrey ∧
    Color.toCrossterm Color.red = CrosstermColor.red ∧
    Color.toCrossterm Color.darkRed = CrosstermColor.darkRed ∧
    Color.toCrossterm Color.green = CrosstermColor.green ∧
    Color.toCrossterm Color.darkGreen = CrosstermColor.darkGreen ∧
    Color.toCrossterm Color.yellow = CrosstermColor.yellow ∧
    Color.toCrossterm Color.darkYellow = CrosstermColor.darkYellow ∧
    Color.toCrossterm Color.blue = CrosstermColor.blue ∧
    Color.toCrossterm Color.darkBlue = CrosstermColor.darkBlue ∧
    Color.toCrossterm Color.magenta = CrosstermColor.magenta ∧
    Color.toCrossterm Color.darkMagenta = CrosstermColor.darkMagenta ∧
    Color.toCrossterm Color.cyan = CrosstermColor.cyan ∧
    Color.toCrossterm Color.darkCyan = CrosstermColor.darkCyan ∧
    Color.toCrossterm Color.white = CrosstermColor.white ∧
    Color.toCrossterm Color.grey = CrosstermColor.grey :=
  ⟨fun _ _ _ => rfl, fun _ => rfl, rfl, rfl, rfl, rfl, rfl, rfl, rfl, rfl,
   rfl, rfl, rfl, rfl, rfl, rfl, rfl, rfl⟩

/-- Claim C2 counterexample: the `Color` enumeration has sixteen pairwise
distinct named variants, all distinct from `Rgb` and `AnsiValue`, refuting
the claim that there are exactly fifteen named colors. -/
theorem C2_sixteen_named_colors_counterexample :
    Color.namedColors.Nodup ∧ Color.namedColors.length = 16 ∧
    Color.namedColors.all Color.isNamed = true := by
  refine ⟨?_, rfl, rfl⟩
  decide

/-- Claim C2, amended: the `Color` type is a closed variant set consisting
of exactly sixteen named colors plus an `Rgb` variant with three `u8`
channels (each 0–255) plus an `AnsiValue` variant with a `u8` index
(0–255); no other variants exist. -/
theorem C2_color_closed_variant_set :
    Color.namedColors.length = 16 ∧ Color.namedColors.Nodup ∧
    ∀ c : Color, c ∈ Color.namedColors ∨
      (∃ r g b : U8, c = Color.rgb r g b) ∨
      ∃ n : U8, c = Color.ansiValue n := by
  refine ⟨rfl, by decide, fun c => ?_⟩
  cases c
  case rgb r g b => exact Or.inr (Or.inl ⟨r, g, b, rfl⟩)
  case ansiValue n => exact Or.inr (Or.inr ⟨n, rfl⟩)
  all_goals exact Or.inl (by decide)

/-- Claim C3: `RenderConfig::empty()` has every leaf style sheet
(`prompt`, `default_value`, `answer`, `text_input.text`,
`text_input.cursor`, `error_message.separator`, `error_message.message`)
equal to `StyleSheet::empty()`, the prompt prefix equal to the unstyled
label `"?"`, and the error prefix equal to the unstyled label `"#"`. -/
theorem C3_render_config_empty_is_unstyled :
    RenderConfig.empty.prompt = StyleSheet.empty ∧
    RenderConfig.empty.defaultValue = StyleSheet.empty ∧
    RenderConfig.empty.answer = StyleSheet.empty ∧
    RenderConfig.empty.textInput.text = StyleSheet.empty ∧
    RenderConfig.empty.textInput.cursor = StyleSheet.empty ∧
    RenderConfig.empty.errorMessage.separator = StyleSheet.empty ∧
    RenderConfig.empty.errorMessage.message = StyleSheet.empty ∧
    RenderConfig.empty.promptPrefix.content = "?" ∧
    RenderConfig.empty.promptPrefix.style = StyleSheet.empty ∧
    RenderConfig.empty.errorMessage.pfx.content = "#" ∧
    RenderConfig.empty.errorMessage.pfx.style = StyleSheet.empty :=
  ⟨rfl, rfl, rfl, rfl, rfl, rfl, rfl, rfl, rfl, rfl, rfl⟩

/-- Claim C4: `RenderConfig::default()` is the curated theme — the prompt
prefix is the label `"?"` with green foreground; the answer style sheet has
cyan foreground; the text-input cursor has grey background and black
foreground while the text-input text is empty; the error prefix is the
label `"#"` with red foreground; the error message body has red foreground;
the error separator is empty; and the remaining `prompt` and
`default_value` fields equal `StyleSheet::empty()`. -/
theorem C4_render_config_default_theme :
    RenderConfig.default.promptPrefix.content = "?" ∧
    RenderConfig.default.promptPrefix.style = StyleSheet.empty.withFg Color.green ∧
    RenderConfig.default.answer = StyleSheet.empty.withFg Color.cyan ∧
    RenderConfig.default.textInput.cursor.bg = some Color.grey ∧
    RenderConfig.default.textInput.cursor.fg = some Color.black ∧
    RenderConfig.default.textInput.cursor.att = Attributes.empty ∧
    RenderConfig.default.textInput.text = StyleSheet.empty ∧
    RenderConfig.default.errorMessage.pfx.content = "#" ∧
    RenderConfig.default.errorMessage.pfx.style = StyleSheet.empty.withFg Color.red ∧
    RenderConfig.default.errorMessage.message = StyleSheet.empty.withFg Color.red ∧
    RenderConfig.default.errorMessage.separator = StyleSheet.empty ∧
    RenderConfig.default.prompt = StyleSheet.empty ∧
    RenderConfig.default.defaultValue = StyleSheet.empty :=
  ⟨rfl, rfl, rfl, rfl, rfl, rfl, rfl, rfl, rfl, rfl, rfl, rfl, rfl⟩

/-- Claim C5: each `with_<field>` builder on `RenderConfig`,
`InputRenderConfig` and `ErrorMessageRenderConfig` returns a value whose
targeted field equals the argument and whose every other field equals the
corresponding field of the receiver. -/
theorem C5_builders_frame_property :
    (∀ (c : RenderConfig) (v : Styled String),
      (c.withPromptPrefix v).promptPrefix = v ∧
      (c.withPromptPrefix v).prompt = c.prompt ∧
      (c.withPromptPrefix v).defaultValue = c.defaultValue ∧
      (c.withPromptPrefix v).textInput = c.textInput ∧
      (c.withPromptPrefix v).answer = c.answer ∧
      (c.withPromptPrefix v).errorMessage = c.errorMessage) ∧
    (∀ (c : RenderConfig) (v : InputRenderConfig),
      (c.withTextInput v).textInput = v ∧
      (c.withTextInput v).promptPrefix = c.promptPrefix ∧
      (c.withTextInput v).prompt = c.prompt ∧
      (c.withTextInput v).defaultValue = c.defaultValue ∧
      (c.withTextInput v).answer = c.answer ∧
      (c.withTextInput v).errorMessage = c.errorMessage) ∧
    (∀ (c : RenderConfig) (v : StyleSheet),
      (c.withDefaultValue v).defaultValue = v ∧
      (c.withDefaultValue v).promptPrefix = c.promptPrefix ∧
      (c.withDefaultValue v).prompt = c.prompt ∧
      (c.withDefaultValue v).textInput = c.textInput ∧
      (c.withDefaultValue v).answer = c.answer ∧
      (c.withDefaultValue v).errorMessage = c.errorMessage) ∧
    (∀ (c : RenderConfig) (v : StyleSheet),
      (c.withAnswer v).answer = v ∧
      (c.withAnswer v).promptPrefix = c.promptPrefix ∧
      (c.withAnswer v).prompt = c.prompt ∧
      (c.withAnswer v).defaultValue = c.defaultValue ∧
      (c.withAnswer v).textInput = c.textInput ∧
      (c.withAnswer v).errorMessage = c.errorMessage) ∧
    (∀ (c : RenderConfig) (v : ErrorMessageRenderConfig),
      (c.withErrorMessage v).errorMessage = v ∧
      (c.withErrorMessage v).promptPrefix = c.promptPrefix ∧
      (c.withErrorMessage v).prompt = c.prompt ∧
      (c.withErrorMessage v).defaultValue = c.defaultValue ∧
      (c.withErrorMessage v).textInput = c.textInput ∧
      (c.withErrorMessage v).answer = c.answer) ∧
    (∀ (c : InputRenderConfig) (v : StyleSheet),
      (c.withText v).text = v ∧ (c.withText v).cursor = c.cursor) ∧
    (∀ (c : InputRenderConfig) (v : StyleSheet),
      (c.withCursor v).cursor = v ∧ (c.withCursor v).text = c.text) ∧
    (∀ (c : ErrorMessageRenderConfig) (v : Styled String),
      (c.withPfx v).pfx = v ∧
      (c.withPfx v).separator = c.separator ∧
      (c.withPfx v).message = c.message) ∧
    (∀ (c : ErrorMessageRenderConfig) (v : StyleSheet),
      (c.withSeparator v).separator = v ∧
      (c.withSeparator v).pfx = c.pfx ∧
      (c.withSeparator v).message = c.message) ∧
    (∀ (c : ErrorMessageRenderConfig) (v : StyleSheet),
      (c.withMessage v).message = v ∧
      (c.withMessage v).pfx = c.pfx ∧
      (c.withMessage v).separator = c.separator) :=
  ⟨fun _ _ => ⟨rfl, rfl, rfl, rfl, rfl, rfl⟩,
   fun _ _ => ⟨rfl, rfl, rfl, rfl, rfl, rfl⟩,
   fun _ _ => ⟨rfl, rfl, rfl, rfl, rfl, rfl⟩,
   fun _ _ => ⟨rfl, rfl, rfl, rfl, rfl, rfl⟩,
   fun _ _ => ⟨rfl, rfl, rfl, rfl, rfl, rfl⟩,
   fun _ _ => ⟨rfl, rfl⟩,
   fun _ _ => ⟨rfl, rfl⟩,
   fun _ _ => ⟨rfl, rfl, rfl⟩,
   fun _ _ => ⟨rfl, rfl, rfl⟩,
   fun _ _ => ⟨rfl, rfl, rfl⟩⟩

/-- Claim C7: in the empty theme the two style sheets of
`InputRenderConfig` are identical (both the identity style sheet), whereas
in the default theme the cursor style sheet differs from the text style
sheet. -/
theorem C7_input_config_empty_vs_default :
    InputRenderConfig.empty.text = InputRenderConfig.empty.cursor ∧
    InputRenderConfig.empty.text = StyleSheet.empty ∧
    InputRenderConfig.default.cursor ≠ InputRenderConfig.default.text := by
  refine ⟨rfl, rfl, ?_⟩
  decide

/-- Claim C8: for every style sheet `s` and colors, `with_fg` is idempotent
at a fixed color, the last `with_fg` wins, and `with_fg` leaves background
and attributes untouched; analogously for `with_bg`. -/
theorem C8_stylesheet_fg_bg_laws :
    ∀ (s : StyleSheet) (c c1 c2 : Color),
      (s.withFg c).withFg c = s.withFg c ∧
      ((s.withFg c1).withFg c2).fg = some c2 ∧
      ((s.withFg c1).withFg c2).bg = s.bg ∧
      ((s.withFg c1).withFg c2).att = s.att ∧
      (s.withBg c).withBg c = s.withBg c ∧
      ((s.withBg c1).withBg c2).bg = some c2 ∧
      ((s.withBg c1).withBg c2).fg = s.fg ∧
      ((s.withBg c1).withBg c2).att = s.att :=
  fun _ _ _ _ => ⟨rfl, rfl, rfl, rfl, rfl, rfl, rfl, rfl⟩

/-- Claim C9: the conversion from `Color` to the external (crossterm) color
representation is injective: if the conversions of two colors are equal
then the colors are equal. -/
theorem C9_color_conversion_injective :
    ∀ c1 c2 : Color, c1.toCrossterm = c2.toCrossterm → c1 = c2 := by
  intro c1 c2 h
  have h1 := crossterm_left_inverse c1
  have h2 := crossterm_left_inverse c2
  rw [h, h2] at h1
  exact (Option.some.inj h1).symm

/-- Witness for claim C9: the injectivity theorem applied at the concrete
pair `red`, `red`, its hypothesis discharged by `rfl`. -/
theorem C9_color_conversion_injective_witness : Color.red = Color.red :=
  C9_color_conversion_injective Color.red Color.red rfl

/-- Claim C10: the `RenderConfig` builders targeting distinct fields
commute: applying two of `with_prompt_prefix`, `with_text_input`,
`with_default_value`, `with_answer`, `with_error_message` that target
different fields in either order yields equal values. -/
theorem C10_distinct_builders_commute :
    ∀ (c : RenderConfig) (p : Styled String) (t : InputRenderConfig)
      (d a : StyleSheet) (e : ErrorMessageRenderConfig),
      (c.withPromptPrefix p).withTextInput t
        = (c.withTextInput t).withPromptPrefix p ∧
      (c.withPromptPrefix p).withDefaultValue d
        = (c.withDefaultValue d).withPromptPrefix p ∧
      (c.withPromptPrefix p).withAnswer a
        = (c.withAnswer a).withPromptPrefix p ∧
      (c.withPromptPrefix p).withErrorMessage e
        = (c.withErrorMessage e).withPromptPrefix p ∧
      (c.withTextInput t).withDefaultValue d
        = (c.withDefaultValue d).withTextInput t ∧
      (c.withTextInput t).withAnswer a
        = (c.withAnswer a).withTextInput t ∧
      (c.withTextInput t).withErrorMessage e
        = (c.withErrorMessage e).withTextInput t ∧
      (c.withDefaultValue d).withAnswer a
        = (c.withAnswer a).withDefaultValue d ∧
      (c.withDefaultValue d).withErrorMessage e
        = (c.withErrorMessage e).withDefaultValue d ∧
      (c.withAnswer a).withErrorMessage e
        = (c.withErrorMessage e).withAnswer a :=
  fun _ _ _ _ _ _ =>
    ⟨rfl, rfl, rfl, rfl, rfl, rfl, rfl, rfl, rfl, rfl⟩

end Inquire
